import Mathlib

set_option maxRecDepth 8000

/-!
A shallow embedding of the question-workflow engine of the shangjizhixu-web
backend: the Markdown-to-canonical-text normalizer
(`app/utils/markdown_converter.py`), the Question data model and the
workflow operations of `app/services/question_service.py`, and the two
asynchronous task orchestrators (`app/tasks/ocr_tasks.py`,
`app/tasks/llm_tasks.py`).  Machine text is modelled as `List Char`
(Python `str`), optional database columns as `Option`, and external
collaborators (HTTP, object storage, the database rows of other tables)
as explicit environment records.  Each definition mirrors one Python
function; the fuel arguments bound the regex scanning loops by the length
of the remaining input, exactly enough for the left-to-right scans they
embed.
-/

/-- Truthiness of a Python `Optional[str]`: `None` and `""` are falsy. -/
def strTruthy : Option String → Bool
  | none => false
  | some s => !s.isEmpty

/-- Truthiness of a Python `Optional[int]` foreign key: `None` and `0` are falsy. -/
def idTruthy : Option Nat → Bool
  | none => false
  | some n => n != 0

/-! ## Text normalizer: `app/utils/markdown_converter.py` -/

/-- The backtick character (written by code point to keep the source plain). -/
def btick : Char := Char.ofNat 96

/-- The placeholder map `self.formula_placeholders`, in insertion order. -/
abbrev PhMap := List (List Char × List Char)

/-- Placeholder text for the k-th protected block formula. -/
def blockPh (k : Nat) : List Char :=
  ("__FORMULA_BLOCK_".data) ++ (Nat.repr k).data ++ ("__".data)

/-- Placeholder text for the k-th protected inline formula. -/
def inlinePh (k : Nat) : List Char :=
  ("__FORMULA_INLINE_".data) ++ (Nat.repr k).data ++ ("__".data)

/-- `re.sub(r'\$\$([^\$]+)\$\$', repl, text, flags=re.DOTALL)` of
`_protect_formulas`: leftmost scan; a match is `$$`, a maximal nonempty
run of non-`$` characters, then `$$`.  Returns the rewritten text, the
next placeholder counter and the extended placeholder map. -/
def protect_block : Nat → List Char → Nat → PhMap → List Char × Nat × PhMap
  | 0, cs, k, m => (cs, k, m)
  | _, [], k, m => ([], k, m)
  | fuel+1, '$' :: '$' :: rest, k, m =>
    let body := rest.takeWhile (fun c => c ≠ '$')
    let rest2 := rest.dropWhile (fun c => c ≠ '$')
    match body, rest2 with
    | _ :: _, '$' :: '$' :: rest3 =>
      let ph := blockPh k
      let formula := '$' :: '$' :: (rest.takeWhile (fun c => c ≠ '$')) ++ ['$', '$']
      let r := protect_block fuel rest3 (k+1) (m ++ [(ph, formula)])
      (ph ++ r.1, r.2)
    | _, _ =>
      let r := protect_block fuel ('$' :: rest) k m
      ('$' :: r.1, r.2)
  | fuel+1, c :: rest, k, m =>
    let r := protect_block fuel rest k m
    (c :: r.1, r.2)

/-- `re.sub(r'\$([^\$]+)\$', repl, text)` of `_protect_formulas`. -/
def protect_inline : Nat → List Char → Nat → PhMap → List Char × Nat × PhMap
  | 0, cs, k, m => (cs, k, m)
  | _, [], k, m => ([], k, m)
  | fuel+1, '$' :: rest, k, m =>
    let body := rest.takeWhile (fun c => c ≠ '$')
    let rest2 := rest.dropWhile (fun c => c ≠ '$')
    match body, rest2 with
    | _ :: _, '$' :: rest3 =>
      let ph := inlinePh k
      let formula := '$' :: (rest.takeWhile (fun c => c ≠ '$')) ++ ['$']
      let r := protect_inline fuel rest3 (k+1) (m ++ [(ph, formula)])
      (ph ++ r.1, r.2)
    | _, _ =>
      let r := protect_inline fuel rest k m
      ('$' :: r.1, r.2)
  | fuel+1, c :: rest, k, m =>
    let r := protect_inline fuel rest k m
    (c :: r.1, r.2)

/-- `MarkdownConverter._protect_formulas`: block formulas first, then inline. -/
def protect_formulas (cs : List Char) : List Char × PhMap :=
  let r1 := protect_block cs.length cs 0 []
  let r2 := protect_inline r1.1.length r1.1 r1.2.1 r1.2.2
  (r2.1, r2.2.2)

/-- Lazy search for a closing delimiter: the shortest nonempty content
(one character consumed unconditionally, then the closing delimiter tested
before each further character) such that `close` follows.  `noNL` encodes
a pattern without `re.DOTALL`, whose `.` cannot cross a newline. -/
def lazyClose (close : List Char) (noNL : Bool) : List Char → Option (List Char × List Char)
  | [] => none
  | c :: cs =>
    if noNL && c = '\n' then none
    else if close.isPrefixOf cs then some ([c], cs.drop close.length)
    else
      match lazyClose close noNL cs with
      | some (content, rest) => some (c :: content, rest)
      | none => none

/-- `re.sub(r'```[^\n]*\n(.+?)```', r'\1', text, flags=re.DOTALL)`. -/
def sub_code_block : Nat → List Char → List Char
  | 0, cs => cs
  | _, [] => []
  | fuel+1, c :: rest =>
    if [btick, btick, btick].isPrefixOf (c :: rest) then
      let afterOpen := rest.drop 2
      let afterLang := afterOpen.dropWhile (fun x => x ≠ '\n')
      match afterLang with
      | '\n' :: body =>
        match lazyClose [btick, btick, btick] false body with
        | some (content, rest2) => content ++ sub_code_block fuel rest2
        | none => c :: sub_code_block fuel rest
      | _ => c :: sub_code_block fuel rest
    else c :: sub_code_block fuel rest

/-- `re.sub(CODE_INLINE_PATTERN, r'\1', text)` with pattern `` `([^`]+)` ``. -/
def sub_inline_code : Nat → List Char → List Char
  | 0, cs => cs
  | _, [] => []
  | fuel+1, c :: rest =>
    if c = btick then
      let body := rest.takeWhile (fun x => x ≠ btick)
      let rest2 := rest.dropWhile (fun x => x ≠ btick)
      match body, rest2 with
      | _ :: _, _ :: rest3 => body ++ sub_inline_code fuel rest3
      | _, _ => c :: sub_inline_code fuel rest
    else c :: sub_inline_code fuel rest

/-- `re.sub(r'!\[([^\]]*)\]\([^\)]+\)', r'\1', text)`: images keep alt text. -/
def sub_image : Nat → List Char → List Char
  | 0, cs => cs
  | _, [] => []
  | fuel+1, c :: rest =>
    (if c = '!' then
      match rest with
      | '[' :: r1 =>
        let alt := r1.takeWhile (fun x => x ≠ ']')
        let r2 := r1.dropWhile (fun x => x ≠ ']')
        match r2 with
        | ']' :: '(' :: r3 =>
          let url := r3.takeWhile (fun x => x ≠ ')')
          let r4 := r3.dropWhile (fun x => x ≠ ')')
          match url, r4 with
          | _ :: _, ')' :: r5 => some (alt, r5)
          | _, _ => none
        | _ => none
      | _ => none
    else none).elim (c :: sub_image fuel rest) (fun p => p.1 ++ sub_image fuel p.2)

/-- `re.sub(r'\[([^\]]+)\]\([^\)]+\)', r'\1', text)`: links keep visible text. -/
def sub_link : Nat → List Char → List Char
  | 0, cs => cs
  | _, [] => []
  | fuel+1, c :: rest =>
    (if c = '[' then
      let txt := rest.takeWhile (fun x => x ≠ ']')
      let r2 := rest.dropWhile (fun x => x ≠ ']')
      match txt, r2 with
      | _ :: _, ']' :: '(' :: r3 =>
        let url := r3.takeWhile (fun x => x ≠ ')')
        let r4 := r3.dropWhile (fun x => x ≠ ')')
        match url, r4 with
        | _ :: _, ')' :: r5 => some (txt, r5)
        | _, _ => none
      | _, _ => none
    else none).elim (c :: sub_link fuel rest) (fun p => p.1 ++ sub_link fuel p.2)

/-- `re.sub(r'\*\*(.+?)\*\*|__(.+?)__', keep-content, text)` (no DOTALL). -/
def sub_bold : Nat → List Char → List Char
  | 0, cs => cs
  | _, [] => []
  | fuel+1, c :: rest =>
    (match c, rest with
    | '*', '*' :: r1 => (lazyClose ['*', '*'] true r1)
    | '_', '_' :: r1 => (lazyClose ['_', '_'] true r1)
    | _, _ => none).elim (c :: sub_bold fuel rest) (fun p => p.1 ++ sub_bold fuel p.2)

/-- `re.sub(r'\*(.+?)\*|_(.+?)_', keep-content, text)` (no DOTALL). -/
def sub_italic : Nat → List Char → List Char
  | 0, cs => cs
  | _, [] => []
  | fuel+1, c :: rest =>
    (match c with
    | '*' => lazyClose ['*'] true rest
    | '_' => lazyClose ['_'] true rest
    | _ => none).elim (c :: sub_italic fuel rest) (fun p => p.1 ++ sub_italic fuel p.2)

/-- `re.sub(r'~~(.+?)~~', r'\1', text)`. -/
def sub_strike : Nat → List Char → List Char
  | 0, cs => cs
  | _, [] => []
  | fuel+1, c :: rest =>
    (match c, rest with
    | '~', '~' :: r1 => lazyClose ['~', '~'] true r1
    | _, _ => none).elim (c :: sub_strike fuel rest) (fun p => p.1 ++ sub_strike fuel p.2)

/-- Python `s.split(sep)` for a nonempty separator, on character lists. -/
def splitOnL (sep : List Char) : Nat → List Char → List Char → List (List Char)
  | 0, acc, cs => [acc.reverse ++ cs]
  | _, acc, [] => [acc.reverse]
  | fuel+1, acc, c :: rest =>
    if sep.isPrefixOf (c :: rest) then
      acc.reverse :: splitOnL sep fuel [] ((c :: rest).drop sep.length)
    else splitOnL sep fuel (c :: acc) rest

/-- Python `s.split(sep)` wrapper starting with enough fuel. -/
def pySplit (sep cs : List Char) : List (List Char) := splitOnL sep (cs.length + 1) [] cs

/-- Python `str.strip()` on a character list. -/
def trimWsL (cs : List Char) : List Char :=
  ((cs.dropWhile Char.isWhitespace).reverse.dropWhile Char.isWhitespace).reverse

/-- `re.sub(HEADING_PATTERN, '', line)` with pattern `^#{1,6}\s+`. -/
def strip_heading (line : List Char) : List Char :=
  let hashes := line.takeWhile (fun c => c = '#')
  let rest := line.dropWhile (fun c => c = '#')
  if 1 ≤ hashes.length && hashes.length ≤ 6 then
    match rest with
    | c :: _ => if c.isWhitespace then rest.dropWhile Char.isWhitespace else line
    | [] => line
  else line

/-- `re.sub(BLOCKQUOTE_PATTERN, '', line)` with pattern `^>\s+`. -/
def strip_blockquote (line : List Char) : List Char :=
  match line with
  | '>' :: rest =>
    match rest with
    | c :: _ => if c.isWhitespace then rest.dropWhile Char.isWhitespace else line
    | [] => line
  | _ => line

/-- `re.sub(LIST_PATTERN, '', line)` with pattern `^[\*\-\+]\s+|^\d+\.\s+`. -/
def strip_list_marker (line : List Char) : List Char :=
  match line with
  | c :: rest =>
    if c = '*' || c = '-' || c = '+' then
      match rest with
      | c2 :: _ => if c2.isWhitespace then rest.dropWhile Char.isWhitespace else line
      | [] => line
    else
      let ds := line.takeWhile Char.isDigit
      let r := line.dropWhile Char.isDigit
      match ds, r with
      | _ :: _, '.' :: r2 =>
        match r2 with
        | c2 :: _ => if c2.isWhitespace then r2.dropWhile Char.isWhitespace else line
        | [] => line
      | _, _ => line
  | [] => []

/-- `re.match(HORIZONTAL_RULE_PATTERN, line.strip())` with pattern `^[\*\-_]{3,}$`. -/
def isHorizontalRule (line : List Char) : Bool :=
  let t := trimWsL line
  3 ≤ t.length && t.all (fun c => c = '*' || c = '-' || c = '_')

/-- The per-line part of `_remove_markdown_formatting`: headings, blockquotes
and list markers stripped, horizontal-rule lines skipped. -/
def process_markdown_line (line : List Char) : List Char :=
  strip_list_marker (strip_blockquote (strip_heading line))

/-- `MarkdownConverter._remove_markdown_formatting`. -/
def remove_markdown_formatting (cs : List Char) : List Char :=
  let t1 := sub_code_block cs.length cs
  let t2 := sub_inline_code t1.length t1
  let t3 := sub_image t2.length t2
  let t4 := sub_link t3.length t3
  let t5 := sub_bold t4.length t4
  let t6 := sub_italic t5.length t5
  let t7 := sub_strike t6.length t6
  let lines := (pySplit ['\n'] t7).map process_markdown_line
  List.intercalate ['\n'] (lines.filter (fun l => !isHorizontalRule l))

/-- `re.sub(r' +', ' ', text)`: collapse runs of spaces (only `' '`). -/
def collapse_spaces : Nat → List Char → List Char
  | 0, cs => cs
  | _, [] => []
  | fuel+1, c :: rest =>
    if c = ' ' then ' ' :: collapse_spaces fuel (rest.dropWhile (fun x => x = ' '))
    else c :: collapse_spaces fuel rest

/-- `MarkdownConverter._clean_whitespace`. -/
def clean_whitespace (cs : List Char) : List Char :=
  let t1 := collapse_spaces cs.length cs
  let t2 := t1.map (fun c => if c = '\n' then ' ' else c)
  collapse_spaces t2.length t2

/-- Python `str.replace(pat, repl)` (all non-overlapping occurrences,
left to right, replacements not rescanned), for a nonempty `pat`. -/
def replaceAllL (pat repl : List Char) : Nat → List Char → List Char
  | 0, cs => cs
  | _, [] => []
  | fuel+1, c :: rest =>
    if pat.isPrefixOf (c :: rest) then
      repl ++ replaceAllL pat repl fuel ((c :: rest).drop pat.length)
    else c :: replaceAllL pat repl fuel rest

/-- `MarkdownConverter._restore_formulas`: one `str.replace` per stored
placeholder, in insertion order. -/
def restore_formulas (m : PhMap) (cs : List Char) : List Char :=
  m.foldl (fun acc p => replaceAllL p.1 p.2 acc.length acc) cs

/-- `MarkdownConverter.convert`. -/
def markdown_convert (markdown_text : String) : String :=
  if markdown_text.isEmpty then ""
  else
    let r := protect_formulas markdown_text.data
    let t2 := remove_markdown_formatting r.1
    let t3 := clean_whitespace t2
    let t4 := restore_formulas r.2 t3
    String.mk (trimWsL t4)

/-- `markdown_to_required_format`: the module-level convenience wrapper. -/
def markdown_to_required_format (s : String) : String := markdown_convert s

/-! ## Data model: `app/models/question.py`, `app/models/enums.py` -/

/-- `QuestionStatus` from `app/models/enums.py`. -/
inductive QuestionStatus
  | NEW
  | OCR_EDITING
  | OCR_REVIEWING
  | OCR_APPROVED
  | REWRITE_GENERATING
  | REWRITE_EDITING
  | REWRITE_REVIEWING
  | DONE
  | ARCHIVED
deriving DecidableEq

/-- `ReviewStatus` from `app/models/enums.py`. -/
inductive ReviewStatus
  | PENDING
  | APPROVED
  | CHANGES_REQUESTED
deriving DecidableEq

/-- One of the five rewrite variants: the `*_i` columns of `Question`
(`draft_rewrite_question_i`, `draft_rewrite_answer_i`, `rewrite_question_i`,
`rewrite_answer_i`, `rewrite_edit_comment_i`, `rewrite_review_comment_i`,
`rewrite_review_status_i`).  The review status column is non-nullable with
default `PENDING`. -/
structure RewriteSlot where
  draft_question : Option String
  draft_answer : Option String
  question : Option String
  answer : Option String
  edit_comment : Option String
  review_comment : Option String
  review_status : ReviewStatus
deriving DecidableEq

/-- The `Question` row.  Nullable text columns are `Option String`,
nullable foreign keys `Option Nat`, timestamps abstract instants (`Nat`).
The five dynamically-addressed slot groups are the fields
`slot1` … `slot5`, read and written through `getSlot`/`updateSlot`. -/
structure Question where
  original_images : List String
  ocr_raw_question : Option String
  ocr_raw_answer : Option String
  draft_original_question : Option String
  draft_original_answer : Option String
  original_question : Option String
  original_answer : Option String
  original_review_status : ReviewStatus
  original_review_comment : Option String
  slot1 : RewriteSlot
  slot2 : RewriteSlot
  slot3 : RewriteSlot
  slot4 : RewriteSlot
  slot5 : RewriteSlot
  ocr_editor_id : Option Nat
  ocr_reviewer_id : Option Nat
  rewrite_editor_id : Option Nat
  rewrite_reviewer_id : Option Nat
  status : QuestionStatus
  ocr_progress : Nat
  rewrite_progress : Nat
  updated_at : Nat
  ocr_completed_at : Option Nat
  rewrite_completed_at : Option Nat
deriving DecidableEq

/-- `getattr(question, f"...{index}")` for a slot group.  Every caller in
the source validates `1 <= index <= 5` first; the out-of-range value is
arbitrary (slot 1). -/
def Question.getSlot (q : Question) : Nat → RewriteSlot
  | 1 => q.slot1
  | 2 => q.slot2
  | 3 => q.slot3
  | 4 => q.slot4
  | 5 => q.slot5
  | _ => q.slot1

/-- `setattr(question, f"...{index}", ...)` for a slot group; out-of-range
indices touch nothing (every caller validates the index first). -/
def Question.updateSlot (q : Question) (i : Nat) (f : RewriteSlot → RewriteSlot) : Question :=
  match i with
  | 1 => { q with slot1 := f q.slot1 }
  | 2 => { q with slot2 := f q.slot2 }
  | 3 => { q with slot3 := f q.slot3 }
  | 4 => { q with slot4 := f q.slot4 }
  | 5 => { q with slot5 := f q.slot5 }
  | _ => q

/-! ## Workflow operations: `app/services/question_service.py` -/

/-- The body of the `if q and a` test of `_count_completed_rewrite_pairs`. -/
def completedPairB (s : RewriteSlot) : Bool :=
  strTruthy s.question && strTruthy s.answer

/-- `QuestionService._count_completed_rewrite_pairs`: the `for i in range(1, 6)`
loop counting slots whose two final fields are truthy. -/
def count_completed_rewrite_pairs (q : Question) : Nat :=
  (if completedPairB q.slot1 then 1 else 0) +
  (if completedPairB q.slot2 then 1 else 0) +
  (if completedPairB q.slot3 then 1 else 0) +
  (if completedPairB q.slot4 then 1 else 0) +
  (if completedPairB q.slot5 then 1 else 0)

/-- `QuestionService.save_ocr_result`: writes raw and draft OCR fields,
promotes `NEW` to `OCR_EDITING`, stamps `updated_at`. -/
def save_ocr_result (now : Nat) (q : Question) (ocr_question ocr_answer : String) : Question :=
  let q1 := { q with
    ocr_raw_question := some ocr_question
    ocr_raw_answer := some ocr_answer
    draft_original_question := some ocr_question
    draft_original_answer := some ocr_answer }
  let q2 := if q1.status = QuestionStatus.NEW then { q1 with status := QuestionStatus.OCR_EDITING } else q1
  { q2 with updated_at := now }

/-- `QuestionService.submit_ocr_review`.  `rewrite_editors` is the list
returned by `UserService.get_users_by_role(db, UserRole.REWRITE_EDITOR)`. -/
def submit_ocr_review (rewrite_editors : List Nat) (now : Nat) (q : Question)
    (review_status : ReviewStatus) (review_comment : Option String)
    (final_question final_answer : Option String) : Question :=
  let q1 := { q with
    original_review_status := review_status
    original_review_comment := review_comment }
  let q2 := if strTruthy final_question then { q1 with original_question := final_question } else q1
  let q3 := if strTruthy final_answer then { q2 with original_answer := final_answer } else q2
  let q4 :=
    if review_status = ReviewStatus.APPROVED then
      let qa := { q3 with
        status := QuestionStatus.OCR_APPROVED
        ocr_progress := 100
        ocr_completed_at := some now }
      match rewrite_editors with
      | [] => qa
      | e :: _ =>
        if idTruthy qa.rewrite_editor_id then qa
        else { qa with rewrite_editor_id := some e, status := QuestionStatus.REWRITE_EDITING }
    else if review_status = ReviewStatus.CHANGES_REQUESTED then
      { q3 with status := QuestionStatus.OCR_EDITING }
    else q3
  { q4 with updated_at := now }

/-- `QuestionService.update_rewrite_draft`: `draft_question`/`draft_answer`/
`edit_comment` are written when not `None` (an empty string is written),
and `REWRITE_GENERATING` advances to `REWRITE_EDITING`. -/
def update_rewrite_draft (now : Nat) (q : Question) (index : Nat)
    (draft_question draft_answer edit_comment : Option String) :
    Except String Question :=
  if index < 1 || index > 5 then Except.error ("Index must be between 1 and 5")
  else
    let q1 := match draft_question with
      | some d => q.updateSlot index (fun s => { s with draft_question := some d })
      | none => q
    let q2 := match draft_answer with
      | some d => q1.updateSlot index (fun s => { s with draft_answer := some d })
      | none => q1
    let q3 := match edit_comment with
      | some d => q2.updateSlot index (fun s => { s with edit_comment := some d })
      | none => q2
    let q4 :=
      if q3.status = QuestionStatus.REWRITE_GENERATING then
        { q3 with status := QuestionStatus.REWRITE_EDITING }
      else q3
    Except.ok { q4 with updated_at := now }

/-- `QuestionService.submit_rewrite_edit`.  `rewrite_reviewers` is the
`UserService.get_users_by_role(db, UserRole.REWRITE_REVIEWER)` result. -/
def submit_rewrite_edit (rewrite_reviewers : List Nat) (now : Nat)
    (q : Question) (index : Nat) : Except String Question :=
  if index < 1 || index > 5 then Except.error ("Index must be between 1 and 5")
  else
    let draft_q := (q.getSlot index).draft_question
    let draft_a := (q.getSlot index).draft_answer
    let q1 := match draft_q with
      | some d =>
        if d.isEmpty then q
        else q.updateSlot index (fun s => { s with question := some (markdown_to_required_format d) })
      | none => q
    let q2 := match draft_a with
      | some d =>
        if d.isEmpty then q1
        else q1.updateSlot index (fun s => { s with answer := some (markdown_to_required_format d) })
      | none => q1
    let completed_pairs := count_completed_rewrite_pairs q2
    let q3 := { q2 with rewrite_progress := min (completed_pairs * 20) 100 }
    let q4 := match rewrite_reviewers with
      | [] => q3
      | r :: _ =>
        if idTruthy q3.rewrite_reviewer_id then q3
        else { q3 with
          rewrite_reviewer_id := some r
          status := QuestionStatus.REWRITE_REVIEWING }
    Except.ok { q4 with updated_at := now }

/-- One iteration of the `for index in range(1, 6)` loop of
`submit_all_rewrite_edits`: convert the truthy drafts of slot `i` to the
required format, then reset the slot's review status to `PENDING` and
clear its review comment. -/
def submitAllStep (q : Question) (i : Nat) : Question :=
  let q1 := match (q.getSlot i).draft_question with
    | some d =>
      if d.isEmpty then q
      else q.updateSlot i (fun s => { s with question := some (markdown_to_required_format d) })
    | none => q
  let q2 := match (q1.getSlot i).draft_answer with
    | some d =>
      if d.isEmpty then q1
      else q1.updateSlot i (fun s => { s with answer := some (markdown_to_required_format d) })
    | none => q1
  q2.updateSlot i (fun s => { s with
    review_status := ReviewStatus.PENDING
    review_comment := none })

/-- `QuestionService.submit_all_rewrite_edits`. -/
def submit_all_rewrite_edits (rewrite_reviewers : List Nat) (now : Nat)
    (q : Question) : Question :=
  let q5 := submitAllStep (submitAllStep (submitAllStep (submitAllStep (submitAllStep q 1) 2) 3) 4) 5
  let completed_pairs := count_completed_rewrite_pairs q5
  let q6 := { q5 with rewrite_progress := min (completed_pairs * 20) 100 }
  let q7 := match rewrite_reviewers with
    | [] => q6
    | r :: _ =>
      if idTruthy q6.rewrite_reviewer_id then q6
      else { q6 with rewrite_reviewer_id := some r }
  { q7 with status := QuestionStatus.REWRITE_REVIEWING, updated_at := now }

/-- The `for i in range(1, 6)` scan of `submit_rewrite_review`, with its
`break` on the first `CHANGES_REQUESTED`: returns
`(has_changes_requested, all_approved)`. -/
def scanReviewStatuses : List ReviewStatus → Bool × Bool
  | [] => (false, true)
  | s :: rest =>
    if s = ReviewStatus.CHANGES_REQUESTED then (true, false)
    else if s ≠ ReviewStatus.APPROVED then ((scanReviewStatuses rest).1, false)
    else scanReviewStatuses rest

/-- The five per-slot review statuses, in index order. -/
def reviewStatusList (q : Question) : List ReviewStatus :=
  [q.slot1.review_status, q.slot2.review_status, q.slot3.review_status,
   q.slot4.review_status, q.slot5.review_status]

/-- `QuestionService.submit_rewrite_review`. -/
def submit_rewrite_review (now : Nat) (q : Question) (index : Nat)
    (review_status : ReviewStatus) (review_comment : Option String)
    (final_question final_answer : Option String) :
    Except String Question :=
  if index < 1 || index > 5 then Except.error ("Index must be between 1 and 5")
  else
    let q1 := q.updateSlot index (fun s => { s with review_status := review_status })
    let q2 := if strTruthy review_comment then
        q1.updateSlot index (fun s => { s with review_comment := review_comment })
      else q1
    let q3 := if strTruthy final_question then
        q2.updateSlot index (fun s => { s with question := final_question })
      else q2
    let q4 := if strTruthy final_answer then
        q3.updateSlot index (fun s => { s with answer := final_answer })
      else q3
    let scan := scanReviewStatuses (reviewStatusList q4)
    let q5 :=
      if scan.1 then { q4 with status := QuestionStatus.REWRITE_EDITING }
      else if scan.2 then
        { q4 with
          status := QuestionStatus.DONE
          rewrite_progress := 100
          rewrite_completed_at := some now }
      else { q4 with status := QuestionStatus.REWRITE_REVIEWING }
    Except.ok { q5 with updated_at := now }

/-! ## OCR task orchestrator: `app/tasks/ocr_tasks.py` -/

/-- The MinerU configuration returned by `_get_mineru_config`
(`None` when the API URL or key is not configured). -/
structure MineruConfig where
  api_url : String
  api_key : String
  model_version : String
deriving DecidableEq

/-- One element of the `extract_result` list of a MinerU poll response. -/
structure FileEntry where
  file_name : String
  state : String
  full_zip_url : Option String
  err_msg : Option String
deriving DecidableEq

/-- The `data` object of a MinerU poll response (batch responses carry
`extract_result`, single-task responses carry `state`). -/
structure MineruData where
  state : Option String
  extract_result : List FileEntry
  full_zip_url : Option String
deriving DecidableEq

/-- What one poll HTTP round-trip yields: a caught `httpx.HTTPError`
(logged, sleep, retry) or a JSON body with its `code` and `data`. -/
inductive PollReply
  | httpError
  | api (code : Int) (data : MineruData)

/-- A downloaded-and-opened result bundle: ZIP member names with their
decoded text contents.  `none` from the fetch function models the caught
download/extract exception for that file. -/
structure ZipArchive where
  entries : List (String × String)

/-- The external world of one `process_mineru_ocr` run: the configuration
row, the outcome of `_submit_mineru_task_with_upload` (None = any download,
upload-URL or upload failure), the body of the k-th poll, and the ZIP
fetch. -/
structure OcrEnv where
  config : Option MineruConfig
  submitResult : Option (String × Bool)
  replies : Nat → PollReply
  fetchZip : String → Option ZipArchive

/-- The `while True` poll loop of `_poll_mineru_task`.  `k` counts completed
sleep intervals, so the elapsed time at the top of the iteration is
`5 * k` (the 5-second `poll_interval`; network time is abstracted to 0),
and the loop times out when it exceeds `max_wait_time`.  The fuel only
bounds the recursion; it is chosen so that the timeout test fires first. -/
def pollLoop (is_batch : Bool) (replies : Nat → PollReply) (max_wait_time : Nat) :
    Nat → Nat → Option MineruData
  | _, 0 => none
  | k, fuel+1 =>
    if 5 * k > max_wait_time then none
    else
      match replies k with
      | PollReply.httpError => pollLoop is_batch replies max_wait_time (k+1) fuel
      | PollReply.api code data =>
        if code ≠ 0 then none
        else if is_batch then
          match data.extract_result with
          | [] => pollLoop is_batch replies max_wait_time (k+1) fuel
          | f :: fs =>
            if (f :: fs).any (fun x => x.state == "failed") then none
            else if (f :: fs).all (fun x => x.state == "done") then
              let combined := if strTruthy data.full_zip_url then data.full_zip_url else f.full_zip_url
              some { state := none, extract_result := f :: fs, full_zip_url := combined }
            else pollLoop is_batch replies max_wait_time (k+1) fuel
        else
          match data.state with
          | some s =>
            if s = "done" then some data
            else if s = "failed" then none
            else pollLoop is_batch replies max_wait_time (k+1) fuel
          | none => pollLoop is_batch replies max_wait_time (k+1) fuel

/-- `_poll_mineru_task`: the empty-API-key guard, then the poll loop. -/
def poll_mineru_task (cfg : MineruConfig) (replies : Nat → PollReply)
    (is_batch : Bool) (max_wait_time : Nat) : Option MineruData :=
  if cfg.api_key.isEmpty then none
  else pollLoop is_batch replies max_wait_time 0 (max_wait_time / 5 + 2)

/-- The per-file body of the `_extract_markdown_from_results` loop:
accumulates markdown contents and failure descriptions. -/
def extractStep (fetchZip : String → Option ZipArchive)
    (acc : List String × List String) (f : FileEntry) : List String × List String :=
  match f.full_zip_url with
  | none => (acc.1, acc.2 ++ [f.file_name ++ ": 未找到 full_zip_url"])
  | some url =>
    match fetchZip url with
    | none => (acc.1, acc.2 ++ [f.file_name ++ ": download or extract error"])
    | some zip =>
      let mdFiles := zip.entries.filter
        (fun e => e.1.endsWith (".md") && !(e.1.startsWith ("__")))
      match mdFiles with
      | [] => (acc.1, acc.2 ++ [f.file_name ++ ": ZIP中未找到Markdown文件"])
      | e :: _ => (acc.1 ++ [e.2], acc.2)

/-- `_extract_markdown_from_results`: all-or-nothing; any failed file or an
empty markdown collection raises (modelled as `Except.error`), otherwise
the contents are joined with the visible separator and the answer is left
empty by design. -/
def extract_markdown_from_results (fetchZip : String → Option ZipArchive)
    (extract_result : List FileEntry) : Except String (String × String) :=
  let acc := extract_result.foldl (extractStep fetchZip) ([], [])
  if !acc.2.isEmpty then
    Except.error ("部分文件处理失败:\n" ++ String.intercalate "\n" acc.2)
  else if acc.1.isEmpty then Except.error ("未能提取到任何Markdown内容")
  else Except.ok (String.intercalate "\n\n---\n\n" acc.1, "")

/-- The dict a Celery task returns. -/
structure TaskResult where
  success : Bool
  message : String
deriving DecidableEq

/-- `process_mineru_ocr`, as a function of the environment and the looked-up
Question row; returns the task's result dict together with the Question
state left in the database.  The status is set to `OCR_EDITING` and
committed before any external call, mirroring the
`question.status = QuestionStatus.OCR_EDITING; await db.commit()` step. -/
def process_mineru_ocr (env : OcrEnv) (now : Nat) (q? : Option Question) :
    TaskResult × Option Question :=
  match q? with
  | none => ({ success := false, message := "Question not found" }, none)
  | some q =>
    if q.original_images.isEmpty then
      ({ success := false, message := "No images to process" }, some q)
    else
      let q1 := { q with status := QuestionStatus.OCR_EDITING }
      match env.config with
      | none =>
        let q2 := save_ocr_result now q1 ("# 待人工录入\n请根据图片录入题目内容")
          ("# 待人工录入\n请根据图片录入答案内容")
        ({ success := true, message := "Placeholder created (MinerU not configured)" }, some q2)
      | some cfg =>
        match env.submitResult with
        | none => ({ success := false, message := "Failed to submit MinerU task" }, some q1)
        | some sub =>
          match poll_mineru_task cfg env.replies sub.2 600 with
          | none => ({ success := false, message := "MinerU task failed or timeout" }, some q1)
          | some data =>
            match data.extract_result with
            | [] =>
              ({ success := false, message := "Error: No extract_result in MinerU response" }, some q1)
            | f :: fs =>
              match extract_markdown_from_results env.fetchZip (f :: fs) with
              | Except.error msg => ({ success := false, message := "Error: " ++ msg }, some q1)
              | Except.ok content =>
                let answer := if content.2.isEmpty then "# 待补充\n请补充答案内容" else content.2
                let q2 := save_ocr_result now q1 content.1 answer
                ({ success := true, message := "OCR processing completed successfully" }, some q2)

/-! ## Rewrite generation tasks: `app/tasks/llm_tasks.py` -/

/-- `_build_rewrite_prompt`: the configured template when
`config and config.value` is truthy, otherwise the built-in default
(abbreviated here to its skeleton: the exact CJK instruction text plays no
role in any claim, while the placeholder mechanics do), then literal
`str.replace` substitution of the three placeholders. -/
def build_rewrite_prompt (template_row : Option String)
    (original_question original_answer : String) (version_number : Nat) : String :=
  let prompt_template :=
    match template_row with
    | some t => if t.isEmpty then defaultRewriteTemplate else t
    | none => defaultRewriteTemplate
  ((prompt_template.replace ("{question}") original_question).replace
    ("{answer}") original_answer).replace ("{version}") (Nat.repr version_number)
where
  /-- The built-in template of `_build_rewrite_prompt`, with the three
  literal placeholders. -/
  defaultRewriteTemplate : String :=
    "我在改写题目。\n题目：\n{question}\n\n参考答案：\n{answer}\n\n【版本要求】这是第 {version} 个改写版本，请确保与其他版本有明显差异。\n"

/-- `_parse_llm_response`: split on `##`, strip each part, take the text
after a `题目`/`答案` header (later occurrences overwrite earlier ones). -/
def parse_llm_response (response : String) : Option String × Option String :=
  let parts := (pySplit ("##".data) response.data).map trimWsL
  parts.foldl
    (fun qa part =>
      if ("题目".data).isPrefixOf part then (some (String.mk (trimWsL (part.drop 2))), qa.2)
      else if ("答案".data).isPrefixOf part then (qa.1, some (String.mk (trimWsL (part.drop 2))))
      else qa)
    (none, none)

/-- The external world of one LLM task run: the `LLM_REWRITE_PROMPT`
configuration row and `_call_llm_api` as a function of the prompt
(`none` models every caught provider/network/parse-JSON failure). -/
structure LlmEnv where
  template_row : Option String
  callLlm : String → Option String

/-- `update_rewrite_draft` applied at a loop index that the task already
knows to be in 1–5 (the `Except.error` branch is unreachable there). -/
def applyDraft (now : Nat) (q : Question) (i : Nat) (dq da : Option String) : Question :=
  match update_rewrite_draft now q i dq da none with
  | Except.ok r => r
  | Except.error _ => q

/-- One iteration of the `for i in range(1, 6)` loop of `generate_rewrites`:
call the provider, parse, and store either the parsed pair, the
parse-failure placeholder, or the call-failure placeholder.  The counters
mirror `results["successful"]`/`results["failed"]`. -/
def genStep (env : LlmEnv) (now : Nat) (oq oa : String)
    (acc : Question × Nat × Nat) (i : Nat) : Question × Nat × Nat :=
  let prompt := build_rewrite_prompt env.template_row oq oa i
  match env.callLlm prompt with
  | some response =>
    let parsed := parse_llm_response response
    if strTruthy parsed.1 && strTruthy parsed.2 then
      (applyDraft now acc.1 i parsed.1 parsed.2, acc.2.1 + 1, acc.2.2)
    else
      (applyDraft now acc.1 i (some ("# 生成失败\n请人工编辑")) (some ("# 生成失败\n请人工编辑")),
       acc.2.1, acc.2.2 + 1)
  | none =>
    (applyDraft now acc.1 i (some ("# API调用失败\n请人工编辑")) (some ("# API调用失败\n请人工编辑")),
     acc.2.1, acc.2.2 + 1)

/-- `generate_rewrites`: the whole-batch task.  Missing question row or
falsy canonical question/answer fail fast; otherwise the status becomes
`REWRITE_GENERATING`, the five slots are processed in order, and the
status is set to `REWRITE_EDITING` at the end. -/
def generate_rewrites (env : LlmEnv) (now : Nat) (q? : Option Question) :
    TaskResult × Option Question :=
  match q? with
  | none => ({ success := false, message := "Question not found" }, none)
  | some q =>
    if !strTruthy q.original_question || !strTruthy q.original_answer then
      ({ success := false, message := "Original question or answer is missing" }, some q)
    else
      let oq := q.original_question.getD ""
      let oa := q.original_answer.getD ""
      let q0 := { q with status := QuestionStatus.REWRITE_GENERATING }
      let acc := [1, 2, 3, 4, 5].foldl (genStep env now oq oa) (q0, 0, 0)
      let q6 := { acc.1 with status := QuestionStatus.REWRITE_EDITING }
      ({ success := true,
         message := "Generated " ++ Nat.repr acc.2.1 ++ "/5 rewrites" }, some q6)

/-- `regenerate_single_rewrite`: regenerates one slot.  On a provider
failure nothing is written; on a parse failure the raw response is stored
in the draft question field behind a manual-extraction marker.  A `None`
canonical question/answer would raise inside `str.replace` and be caught
by the task's `except` (modelled by the error branch). -/
def regenerate_single_rewrite (env : LlmEnv) (now : Nat) (q? : Option Question)
    (index : Nat) : TaskResult × Option Question :=
  if index < 1 || index > 5 then
    ({ success := false, message := "Index must be between 1 and 5" }, q?)
  else
    match q? with
    | none => ({ success := false, message := "Question not found" }, none)
    | some q =>
      match q.original_question, q.original_answer with
      | some oq, some oa =>
        let prompt := build_rewrite_prompt env.template_row oq oa index
        (match env.callLlm prompt with
        | some response =>
          let parsed := parse_llm_response response
          if strTruthy parsed.1 && strTruthy parsed.2 then
            ({ success := true,
               message := "Rewrite " ++ Nat.repr index ++ " regenerated successfully" },
             some (applyDraft now q index parsed.1 parsed.2))
          else
            ({ success := true,
               message := "LLM returned but parsing failed. Raw response saved for manual review." },
             some (applyDraft now q index
               (some ("【LLM原始返回 - 需要手动提取】\n\n" ++ response))
               (some ("【请从左侧LLM返回中手动复制答案部分】"))))
        | none => ({ success := false, message := "LLM API call failed" }, some q))
      | _, _ => ({ success := false, message := "Error: replace() argument must be str" }, some q)

/-! ## Helper lemmas -/

/-- The review-scan loop computes exactly "some slot is `CHANGES_REQUESTED`"
and "all slots are `APPROVED`", despite its early `break`. -/
theorem scanReviewStatuses_spec (l : List ReviewStatus) :
    scanReviewStatuses l =
      (l.any (fun s => decide (s = ReviewStatus.CHANGES_REQUESTED)),
       l.all (fun s => decide (s = ReviewStatus.APPROVED))) := by
  induction l with
  | nil => rfl
  | cons s rest ih => cases s <;> simp [scanReviewStatuses, ih]

/-- A list with a `CHANGES_REQUESTED` element is not all-`APPROVED`. -/
theorem any_cr_not_all_approved (l : List ReviewStatus)
    (h : l.any (fun s => decide (s = ReviewStatus.CHANGES_REQUESTED)) = true) :
    l.all (fun s => decide (s = ReviewStatus.APPROVED)) = false := by
  induction l with
  | nil => simp at h
  | cons s rest ih =>
    cases s <;> simp_all

/-- Some slot of `q` holds a `CHANGES_REQUESTED` review. -/
def anyChangesRequested (q : Question) : Bool :=
  (reviewStatusList q).any (fun s => decide (s = ReviewStatus.CHANGES_REQUESTED))

/-- All five slots of `q` hold `APPROVED` reviews. -/
def allFiveApproved (q : Question) : Bool :=
  (reviewStatusList q).all (fun s => decide (s = ReviewStatus.APPROVED))

theorem updateSlot_getSlot_self (q : Question) (i : Nat) (f : RewriteSlot → RewriteSlot)
    (h1 : 1 ≤ i) (h2 : i ≤ 5) :
    (q.updateSlot i f).getSlot i = f (q.getSlot i) := by
  interval_cases i <;> rfl

theorem updateSlot_getSlot_ne (q : Question) (i j : Nat) (f : RewriteSlot → RewriteSlot)
    (hj1 : 1 ≤ j) (hj2 : j ≤ 5) (hne : i ≠ j) :
    (q.updateSlot i f).getSlot j = q.getSlot j := by
  interval_cases j <;>
    (rcases i with _ | _ | _ | _ | _ | _ | i <;> first | rfl | exact absurd rfl hne)

/-! ## Claim theorems -/

/-- Claim C2: the spec's round-trip example fails on the code.  Normalizing
`"**Q:**\nSolve $$x^2=4$$"` does not yield `"Q:Solve $$x^2=4$$"`: the
formula placeholder `__FORMULA_BLOCK_0__` is itself consumed by the
bold (`__(.+?)__`) and italic (`_(.+?)_`) stripping passes, so the stored
formula is never restored and the output is `"Q: Solve FORMULABLOCK0"`.
This also contradicts the module's own docstring examples, which promise
the `$$...$$` text preserved. -/
theorem C2_bug_eval :
    markdown_to_required_format ("**Q:**\nSolve $$x^2=4$$") = "Q: Solve FORMULABLOCK0" ∧
    markdown_to_required_format ("**Q:**\nSolve $$x^2=4$$") ≠ "Q:Solve $$x^2=4$$" := by
  exact ⟨by decide, by decide⟩

/-- Claim C7: every per-slot rewrite operation (draft update, submit,
review) rejects a slot index outside 1–5 with the validation error before
producing any mutated state. -/
theorem C7_thm (now : Nat) (q : Question) (index : Nat)
    (dq da ec rc fq fa : Option String) (revs : List Nat) (rs : ReviewStatus)
    (h : index < 1 ∨ index > 5) :
    update_rewrite_draft now q index dq da ec = Except.error ("Index must be between 1 and 5") ∧
    submit_rewrite_edit revs now q index = Except.error ("Index must be between 1 and 5") ∧
    submit_rewrite_review now q index rs rc fq fa = Except.error ("Index must be between 1 and 5") := by
  rcases h with h | h <;>
    simp [update_rewrite_draft, submit_rewrite_edit, submit_rewrite_review, h]

/-- Witness for C7 at the concrete out-of-range indices 0 and 6. -/
theorem C7_thm_witness :
    (0 < 1 ∨ 0 > 5) ∧ (6 < 1 ∨ 6 > 5) ∧
    (∀ q : Question,
      update_rewrite_draft 1 q 0 none none none = Except.error ("Index must be between 1 and 5") ∧
      submit_rewrite_edit [] 1 q 0 = Except.error ("Index must be between 1 and 5") ∧
      submit_rewrite_review 1 q 0 ReviewStatus.APPROVED none none none = Except.error ("Index must be between 1 and 5")) ∧
    (∀ q : Question,
      submit_rewrite_edit [] 1 q 6 = Except.error ("Index must be between 1 and 5")) :=
  ⟨Or.inl (by decide), Or.inr (by decide),
   fun q => C7_thm 1 q 0 none none none none none none [] ReviewStatus.APPROVED (Or.inl (by decide)),
   fun q => (C7_thm 1 q 6 none none none none none none [] ReviewStatus.APPROVED (Or.inr (by decide))).2.1⟩

/-- Claim C10: `submit_rewrite_review` imposes no precondition on the
Question's current status: for every state of the Question (hence every
starting status, including `DONE`) a review with a valid index 1–5 is
recorded (the operation succeeds), and a `CHANGES_REQUESTED` review always
re-applies the 5-slot aggregation and moves the Question to
`REWRITE_EDITING` — in particular from `DONE`. -/
theorem C10_thm (now : Nat) (q : Question) (index : Nat) (rs : ReviewStatus)
    (rc fq fa : Option String) (h1 : 1 ≤ index) (h2 : index ≤ 5) :
    (∃ q', submit_rewrite_review now q index rs rc fq fa = Except.ok q') ∧
    (∀ q', submit_rewrite_review now q index ReviewStatus.CHANGES_REQUESTED rc fq fa = Except.ok q' →
      q'.status = QuestionStatus.REWRITE_EDITING) := by
  constructor
  · interval_cases index <;> exact ⟨_, rfl⟩
  · intro q' hs
    interval_cases index <;>
    · simp only [submit_rewrite_review] at hs
      rw [if_neg (by decide)] at hs
      rw [Except.ok.injEq] at hs
      subst hs
      split <;> split <;> split <;>
        simp [reviewStatusList, Question.updateSlot, scanReviewStatuses_spec]

/-- An all-`APPROVED`, fully final slot, for concrete witnesses. -/
def slotApproved : RewriteSlot :=
  { draft_question := some "dq", draft_answer := some "da",
    question := some "q", answer := some "a",
    edit_comment := none, review_comment := none,
    review_status := ReviewStatus.APPROVED }

/-- A Question already in `DONE` with all five slots approved. -/
def qDone : Question :=
  { original_images := ["img.png"],
    ocr_raw_question := some "raw", ocr_raw_answer := some "raw",
    draft_original_question := some "d", draft_original_answer := some "d",
    original_question := some "OQ", original_answer := some "OA",
    original_review_status := ReviewStatus.APPROVED, original_review_comment := none,
    slot1 := slotApproved, slot2 := slotApproved, slot3 := slotApproved,
    slot4 := slotApproved, slot5 := slotApproved,
    ocr_editor_id := some 1, ocr_reviewer_id := some 2,
    rewrite_editor_id := some 3, rewrite_reviewer_id := some 4,
    status := QuestionStatus.DONE,
    ocr_progress := 100, rewrite_progress := 100, updated_at := 5,
    ocr_completed_at := some 6, rewrite_completed_at := some 7 }

/-- Unwraps a service result, with a default for the unreachable error case. -/
def getOk (x : Except String Question) (d : Question) : Question :=
  match x with
  | Except.ok r => r
  | Except.error _ => d

/-- Witness for C10: a `CHANGES_REQUESTED` review on slot 2 of a Question
already in `DONE` is recorded and moves the Question back to
`REWRITE_EDITING`. -/
theorem C10_thm_witness :
    1 ≤ 2 ∧ 2 ≤ 5 ∧
    (getOk (submit_rewrite_review 9 qDone 2 ReviewStatus.CHANGES_REQUESTED none none none)
        qDone).status = QuestionStatus.REWRITE_EDITING :=
  ⟨by decide, by decide,
   (C10_thm 9 qDone 2 ReviewStatus.CHANGES_REQUESTED none none none
     (by decide) (by decide)).2 _ rfl⟩

set_option maxHeartbeats 3000000 in
/-- Claim C5: after `submit_rewrite_review` records a slot's outcome, the
resulting status is determined by the scan of all five slot review
statuses: any `CHANGES_REQUESTED` gives `REWRITE_EDITING` (a rejection
overrides approvals), all five `APPROVED` gives `DONE` with
`rewrite_progress = 100` and the completion timestamp set, and otherwise
the Question stays `REWRITE_REVIEWING`. -/
theorem C5_thm (now : Nat) (q : Question) (index : Nat) (rs : ReviewStatus)
    (rc fq fa : Option String) (q' : Question)
    (h1 : 1 ≤ index) (h2 : index ≤ 5)
    (hs : submit_rewrite_review now q index rs rc fq fa = Except.ok q') :
    (anyChangesRequested q' = true → q'.status = QuestionStatus.REWRITE_EDITING) ∧
    (allFiveApproved q' = true → q'.status = QuestionStatus.DONE ∧
      q'.rewrite_progress = 100 ∧ q'.rewrite_completed_at = some now) ∧
    (anyChangesRequested q' = false → allFiveApproved q' = false →
      q'.status = QuestionStatus.REWRITE_REVIEWING) := by
  interval_cases index <;>
  · simp only [submit_rewrite_review] at hs
    rw [if_neg (by decide), Except.ok.injEq] at hs
    subst hs
    repeat' split
    all_goals
      refine ⟨fun hcr => ?_, fun hall => ?_, fun hncr hnall => ?_⟩ <;>
        simp_all [anyChangesRequested, allFiveApproved, reviewStatusList,
          scanReviewStatuses_spec, Question.updateSlot, any_cr_not_all_approved]

/-- A slot whose review is still pending but whose content is final. -/
def slotPendingFull : RewriteSlot :=
  { slotApproved with review_status := ReviewStatus.PENDING }

/-- A Question in `REWRITE_REVIEWING` with four approvals and slot 5 pending. -/
def qFourApproved : Question :=
  { qDone with
    slot5 := slotPendingFull
    status := QuestionStatus.REWRITE_REVIEWING
    rewrite_progress := 100
    rewrite_completed_at := none }

/-- Witness for C5: approving slot 5 of `qFourApproved` makes all five
slots `APPROVED`, and the Question becomes `DONE` with progress 100 and
the completion timestamp set. -/
theorem C5_thm_witness :
    (getOk (submit_rewrite_review 11 qFourApproved 5 ReviewStatus.APPROVED none none none)
        qFourApproved).status = QuestionStatus.DONE ∧
    (getOk (submit_rewrite_review 11 qFourApproved 5 ReviewStatus.APPROVED none none none)
        qFourApproved).rewrite_progress = 100 ∧
    (getOk (submit_rewrite_review 11 qFourApproved 5 ReviewStatus.APPROVED none none none)
        qFourApproved).rewrite_completed_at = some 11 :=
  (C5_thm 11 qFourApproved 5 ReviewStatus.APPROVED none none none _
    (by decide) (by decide) rfl).2.1 (by decide)

/-- Claim C8: from `OCR_REVIEWING`, an `APPROVED` OCR review with a rewrite
editor available (one exists and the Question has none assigned) gives
status `REWRITE_EDITING`, `ocr_progress = 100`, the OCR-completion
timestamp, and the auto-assigned rewrite editor; a `CHANGES_REQUESTED`
review returns the Question to `OCR_EDITING` with the progress unchanged. -/
theorem C8_thm (e : Nat) (rest eds : List Nat) (now : Nat) (q : Question)
    (rc fq fa : Option String)
    (_hst : q.status = QuestionStatus.OCR_REVIEWING)
    (havail : idTruthy q.rewrite_editor_id = false) :
    ((submit_ocr_review (e :: rest) now q ReviewStatus.APPROVED rc fq fa).status = QuestionStatus.REWRITE_EDITING ∧
     (submit_ocr_review (e :: rest) now q ReviewStatus.APPROVED rc fq fa).ocr_progress = 100 ∧
     (submit_ocr_review (e :: rest) now q ReviewStatus.APPROVED rc fq fa).ocr_completed_at = some now ∧
     (submit_ocr_review (e :: rest) now q ReviewStatus.APPROVED rc fq fa).rewrite_editor_id = some e) ∧
    ((submit_ocr_review eds now q ReviewStatus.CHANGES_REQUESTED rc fq fa).status = QuestionStatus.OCR_EDITING ∧
     (submit_ocr_review eds now q ReviewStatus.CHANGES_REQUESTED rc fq fa).ocr_progress = q.ocr_progress) := by
  refine ⟨?_, ?_⟩ <;>
  · simp only [submit_ocr_review]
    repeat' split
    all_goals simp_all

/-- A Question waiting for its OCR review, with no rewrite editor yet. -/
def qOcrReviewing : Question :=
  { qDone with
    status := QuestionStatus.OCR_REVIEWING
    ocr_progress := 50
    rewrite_progress := 0
    rewrite_editor_id := none
    ocr_completed_at := none
    rewrite_completed_at := none }

/-- Witness for C8 at a concrete reviewing Question with editor 9 available. -/
theorem C8_thm_witness :
    ((submit_ocr_review [9] 12 qOcrReviewing ReviewStatus.APPROVED none none none).status = QuestionStatus.REWRITE_EDITING ∧
     (submit_ocr_review [9] 12 qOcrReviewing ReviewStatus.APPROVED none none none).ocr_progress = 100 ∧
     (submit_ocr_review [9] 12 qOcrReviewing ReviewStatus.APPROVED none none none).ocr_completed_at = some 12 ∧
     (submit_ocr_review [9] 12 qOcrReviewing ReviewStatus.APPROVED none none none).rewrite_editor_id = some 9) ∧
    ((submit_ocr_review [] 12 qOcrReviewing ReviewStatus.CHANGES_REQUESTED none none none).status = QuestionStatus.OCR_EDITING ∧
     (submit_ocr_review [] 12 qOcrReviewing ReviewStatus.CHANGES_REQUESTED none none none).ocr_progress = qOcrReviewing.ocr_progress) :=
  C8_thm 9 [] [] 12 qOcrReviewing none none none (by decide) (by decide)

set_option maxHeartbeats 3000000 in
/-- Claim C4: after a rewrite submit (single-slot with a valid index, or
submit-all), if exactly `n` of the five slots have both final fields
non-empty then `rewrite_progress = min (20 * n) 100`: the progress is
recomputed from the slots, never incremented. -/
theorem C4_thm :
    (∀ (revs : List Nat) (now : Nat) (q : Question) (index : Nat) (q' : Question) (n : Nat),
      1 ≤ index → index ≤ 5 →
      submit_rewrite_edit revs now q index = Except.ok q' →
      count_completed_rewrite_pairs q' = n →
      q'.rewrite_progress = min (20 * n) 100) ∧
    (∀ (revs : List Nat) (now : Nat) (q : Question) (n : Nat),
      count_completed_rewrite_pairs (submit_all_rewrite_edits revs now q) = n →
      (submit_all_rewrite_edits revs now q).rewrite_progress = min (20 * n) 100) := by
  constructor
  · intro revs now q index q' n h1 h2 hs hn
    interval_cases index <;>
    · simp only [submit_rewrite_edit] at hs
      rw [if_neg (by decide), Except.ok.injEq] at hs
      subst hs
      subst hn
      repeat' split
      all_goals
        simp [count_completed_rewrite_pairs, completedPairB, Question.updateSlot,
          Question.getSlot, Nat.mul_comm]
  · intro revs now q n hn
    subst hn
    simp only [submit_all_rewrite_edits]
    repeat' split
    all_goals
      simp [count_completed_rewrite_pairs, completedPairB, Nat.mul_comm]

/-- A slot with no content at all. -/
def slotEmpty : RewriteSlot :=
  { draft_question := none, draft_answer := none, question := none, answer := none,
    edit_comment := none, review_comment := none, review_status := ReviewStatus.PENDING }

/-- A Question with two completed slots and a third slot holding only drafts. -/
def qTwoDone : Question :=
  { qDone with
    slot3 := { slotEmpty with draft_question := some "d3q", draft_answer := some "d3a" }
    slot4 := slotEmpty
    slot5 := slotEmpty
    status := QuestionStatus.REWRITE_EDITING
    rewrite_progress := 40
    rewrite_completed_at := none }

/-- Witness for C4: submitting slot 3 of `qTwoDone` (and submitting all)
completes three pairs and sets the progress to `min (20 * 3) 100 = 60`. -/
theorem C4_thm_witness :
    1 ≤ 3 ∧ 3 ≤ 5 ∧
    count_completed_rewrite_pairs (getOk (submit_rewrite_edit [] 13 qTwoDone 3) qTwoDone) = 3 ∧
    (getOk (submit_rewrite_edit [] 13 qTwoDone 3) qTwoDone).rewrite_progress = min (20 * 3) 100 ∧
    count_completed_rewrite_pairs (submit_all_rewrite_edits [] 13 qTwoDone) = 3 ∧
    (submit_all_rewrite_edits [] 13 qTwoDone).rewrite_progress = min (20 * 3) 100 :=
  ⟨by decide, by decide, by decide,
   C4_thm.1 [] 13 qTwoDone 3 _ 3 (by decide) (by decide) rfl (by decide),
   by decide,
   C4_thm.2 [] 13 qTwoDone 3 (by decide)⟩

/-- The final-field value `submit_all_rewrite_edits` produces for a slot:
a truthy draft is normalized into the final field, otherwise the old final
value is kept. -/
def normFinal (draft old : Option String) : Option String :=
  match draft with
  | some d => if d.isEmpty then old else some (markdown_to_required_format d)
  | none => old

/-- One `submit_all_rewrite_edits` loop iteration leaves every other slot
untouched. -/
theorem submitAllStep_getSlot_ne (q : Question) (i j : Nat)
    (hi1 : 1 ≤ i) (hi2 : i ≤ 5) (hj1 : 1 ≤ j) (hj2 : j ≤ 5) (hne : i ≠ j) :
    (submitAllStep q i).getSlot j = q.getSlot j := by
  interval_cases i <;> interval_cases j <;>
    first
    | exact absurd rfl hne
    | (simp only [submitAllStep]; repeat' split
       all_goals rfl)

/-- One `submit_all_rewrite_edits` loop iteration normalizes the truthy
drafts of its slot into the final fields and resets the slot's review
status and comment. -/
theorem submitAllStep_getSlot_self (q : Question) (i : Nat)
    (h1 : 1 ≤ i) (h2 : i ≤ 5) :
    (submitAllStep q i).getSlot i =
      { q.getSlot i with
        question := normFinal (q.getSlot i).draft_question (q.getSlot i).question
        answer := normFinal (q.getSlot i).draft_answer (q.getSlot i).answer
        review_status := ReviewStatus.PENDING
        review_comment := none } := by
  interval_cases i <;>
  · simp only [submitAllStep, Question.getSlot, Question.updateSlot, normFinal]
    repeat' split
    all_goals simp_all

set_option maxHeartbeats 4000000 in
/-- Claim C6: `submit_all_rewrite_edits` normalizes every slot whose draft
fields are present into that slot's final fields, resets every slot's
review status to `PENDING` (clearing its review comment, regardless of any
prior `APPROVED`), recomputes `rewrite_progress` from the final fields,
and unconditionally sets the status to `REWRITE_REVIEWING`. -/
theorem C6_thm (revs : List Nat) (now : Nat) (q : Question) :
    (∀ k, 1 ≤ k → k ≤ 5 →
      ((submit_all_rewrite_edits revs now q).getSlot k).review_status = ReviewStatus.PENDING ∧
      ((submit_all_rewrite_edits revs now q).getSlot k).review_comment = none ∧
      ((submit_all_rewrite_edits revs now q).getSlot k).question =
        normFinal (q.getSlot k).draft_question (q.getSlot k).question ∧
      ((submit_all_rewrite_edits revs now q).getSlot k).answer =
        normFinal (q.getSlot k).draft_answer (q.getSlot k).answer) ∧
    (submit_all_rewrite_edits revs now q).status = QuestionStatus.REWRITE_REVIEWING ∧
    (submit_all_rewrite_edits revs now q).rewrite_progress =
      min (count_completed_rewrite_pairs (submit_all_rewrite_edits revs now q) * 20) 100 := by
  refine ⟨?_, ?_, ?_⟩
  · intro k hk1 hk2
    have hout : ∀ j, 1 ≤ j → j ≤ 5 → (submit_all_rewrite_edits revs now q).getSlot j =
        (submitAllStep (submitAllStep (submitAllStep (submitAllStep (submitAllStep q 1) 2) 3) 4) 5).getSlot j := by
      intro j hj1 hj2
      simp only [submit_all_rewrite_edits]
      repeat' split
      all_goals (interval_cases j <;> rfl)
    interval_cases k
    · rw [hout 1 (by decide) (by decide),
        submitAllStep_getSlot_ne _ 5 1 (by decide) (by decide) (by decide) (by decide) (by decide),
        submitAllStep_getSlot_ne _ 4 1 (by decide) (by decide) (by decide) (by decide) (by decide),
        submitAllStep_getSlot_ne _ 3 1 (by decide) (by decide) (by decide) (by decide) (by decide),
        submitAllStep_getSlot_ne _ 2 1 (by decide) (by decide) (by decide) (by decide) (by decide),
        submitAllStep_getSlot_self _ 1 (by decide) (by decide)]
      exact ⟨rfl, rfl, rfl, rfl⟩
    · rw [hout 2 (by decide) (by decide),
        submitAllStep_getSlot_ne _ 5 2 (by decide) (by decide) (by decide) (by decide) (by decide),
        submitAllStep_getSlot_ne _ 4 2 (by decide) (by decide) (by decide) (by decide) (by decide),
        submitAllStep_getSlot_ne _ 3 2 (by decide) (by decide) (by decide) (by decide) (by decide),
        submitAllStep_getSlot_self _ 2 (by decide) (by decide),
        submitAllStep_getSlot_ne _ 1 2 (by decide) (by decide) (by decide) (by decide) (by decide)]
      exact ⟨rfl, rfl, rfl, rfl⟩
    · rw [hout 3 (by decide) (by decide),
        submitAllStep_getSlot_ne _ 5 3 (by decide) (by decide) (by decide) (by decide) (by decide),
        submitAllStep_getSlot_ne _ 4 3 (by decide) (by decide) (by decide) (by decide) (by decide),
        submitAllStep_getSlot_self _ 3 (by decide) (by decide),
        submitAllStep_getSlot_ne _ 2 3 (by decide) (by decide) (by decide) (by decide) (by decide),
        submitAllStep_getSlot_ne _ 1 3 (by decide) (by decide) (by decide) (by decide) (by decide)]
      exact ⟨rfl, rfl, rfl, rfl⟩
    · rw [hout 4 (by decide) (by decide),
        submitAllStep_getSlot_ne _ 5 4 (by decide) (by decide) (by decide) (by decide) (by decide),
        submitAllStep_getSlot_self _ 4 (by decide) (by decide),
        submitAllStep_getSlot_ne _ 3 4 (by decide) (by decide) (by decide) (by decide) (by decide),
        submitAllStep_getSlot_ne _ 2 4 (by decide) (by decide) (by decide) (by decide) (by decide),
        submitAllStep_getSlot_ne _ 1 4 (by decide) (by decide) (by decide) (by decide) (by decide)]
      exact ⟨rfl, rfl, rfl, rfl⟩
    · rw [hout 5 (by decide) (by decide),
        submitAllStep_getSlot_self _ 5 (by decide) (by decide),
        submitAllStep_getSlot_ne _ 4 5 (by decide) (by decide) (by decide) (by decide) (by decide),
        submitAllStep_getSlot_ne _ 3 5 (by decide) (by decide) (by decide) (by decide) (by decide),
        submitAllStep_getSlot_ne _ 2 5 (by decide) (by decide) (by decide) (by decide) (by decide),
        submitAllStep_getSlot_ne _ 1 5 (by decide) (by decide) (by decide) (by decide) (by decide)]
      exact ⟨rfl, rfl, rfl, rfl⟩
  · rfl
  · simp only [submit_all_rewrite_edits]
    repeat' split
    all_goals
      simp [count_completed_rewrite_pairs, completedPairB]

/-- Witness for C6: submitting all slots of `qTwoDone` resets slot 2's
previously `APPROVED` review to `PENDING` and forces `REWRITE_REVIEWING`. -/
theorem C6_thm_witness :
    ((submit_all_rewrite_edits [] 14 qTwoDone).getSlot 2).review_status = ReviewStatus.PENDING ∧
    (submit_all_rewrite_edits [] 14 qTwoDone).status = QuestionStatus.REWRITE_REVIEWING :=
  ⟨((C6_thm [] 14 qTwoDone).1 2 (by decide) (by decide)).1, (C6_thm [] 14 qTwoDone).2.1⟩

/-- Claim C1 (amended): whenever `process_mineru_ocr` reports failure for a
Question that has images, the stored Question is exactly the pre-task
state except for the status, which the task set to `OCR_EDITING` (and
committed) before contacting the provider: in particular none of the
raw/draft OCR fields is written. -/
theorem C1_thm (env : OcrEnv) (now : Nat) (q : Question)
    (himg : q.original_images ≠ [])
    (hfail : (process_mineru_ocr env now (some q)).1.success = false) :
    (process_mineru_ocr env now (some q)).2 =
      some { q with status := QuestionStatus.OCR_EDITING } := by
  rcases hq : q.original_images with _ | ⟨a, as⟩
  · exact absurd hq himg
  · rcases hconf : env.config with _ | cfg
    · simp [process_mineru_ocr, hq, hconf] at hfail
    · rcases hsub : env.submitResult with _ | ⟨tid, b⟩
      · simp [process_mineru_ocr, hq, hconf, hsub]
      · rcases hpoll : poll_mineru_task cfg env.replies b 600 with _ | data
        · simp [process_mineru_ocr, hq, hconf, hsub, hpoll]
        · rcases hex : data.extract_result with _ | ⟨f, fs⟩
          · simp [process_mineru_ocr, hq, hconf, hsub, hpoll, hex]
          · rcases hmd : extract_markdown_from_results env.fetchZip (f :: fs) with msg | content
            · simp [process_mineru_ocr, hq, hconf, hsub, hpoll, hex, hmd]
            · simp [process_mineru_ocr, hq, hconf, hsub, hpoll, hex, hmd] at hfail

/-- A freshly created Question (status `NEW`) with one image. -/
def qNewOcr : Question :=
  { original_images := ["a.png"],
    ocr_raw_question := none, ocr_raw_answer := none,
    draft_original_question := none, draft_original_answer := none,
    original_question := none, original_answer := none,
    original_review_status := ReviewStatus.PENDING, original_review_comment := none,
    slot1 := slotEmpty, slot2 := slotEmpty, slot3 := slotEmpty,
    slot4 := slotEmpty, slot5 := slotEmpty,
    ocr_editor_id := none, ocr_reviewer_id := none,
    rewrite_editor_id := none, rewrite_reviewer_id := none,
    status := QuestionStatus.NEW,
    ocr_progress := 0, rewrite_progress := 0, updated_at := 0,
    ocr_completed_at := none, rewrite_completed_at := none }

/-- A configured MinerU provider. -/
def cfgOcr : MineruConfig := { api_url := "u", api_key := "k", model_version := "v" }

/-- An environment whose batch reports one file in state `failed`. -/
def envOcrFailedFile : OcrEnv :=
  { config := some cfgOcr, submitResult := some ("batch-1", true),
    replies := fun _ => PollReply.api 0
      { state := none,
        extract_result := [{ file_name := "a.png", state := "failed",
                             full_zip_url := none, err_msg := some "boom" }],
        full_zip_url := none },
    fetchZip := fun _ => none }

/-- An environment whose batch never leaves state `running`, so the poll
loop runs into its 600-unit timeout. -/
def envOcrTimeout : OcrEnv :=
  { config := some cfgOcr, submitResult := some ("batch-1", true),
    replies := fun _ => PollReply.api 0
      { state := none,
        extract_result := [{ file_name := "a.png", state := "running",
                             full_zip_url := none, err_msg := none }],
        full_zip_url := none },
    fetchZip := fun _ => none }

/-- Counterexample for C1 as stated: on a failed batch the Question is not
left in its pre-task state — the status was committed to `OCR_EDITING` at
task start and stays there, while the pre-task status was `NEW`. -/
theorem C1_counterexample :
    (process_mineru_ocr envOcrFailedFile 7 (some qNewOcr)).1.success = false ∧
    (process_mineru_ocr envOcrFailedFile 7 (some qNewOcr)).2 ≠ some qNewOcr ∧
    (process_mineru_ocr envOcrFailedFile 7 (some qNewOcr)).2 =
      some { qNewOcr with status := QuestionStatus.OCR_EDITING } ∧
    qNewOcr.status = QuestionStatus.NEW :=
  ⟨by decide, by decide, by decide, by decide⟩

/-- Witness for C1 at the failed-file environment. -/
theorem C1_thm_witness :
    qNewOcr.original_images ≠ [] ∧
    (process_mineru_ocr envOcrFailedFile 7 (some qNewOcr)).1.success = false ∧
    (process_mineru_ocr envOcrFailedFile 7 (some qNewOcr)).2 =
      some { qNewOcr with status := QuestionStatus.OCR_EDITING } :=
  ⟨by decide, by decide, C1_thm envOcrFailedFile 7 qNewOcr (by decide) (by decide)⟩

/-- Claim C3 (amended): a polling timeout and a remote `failed` state are
reported identically in the task's result — whenever the poll returns no
result (for either reason) the task result is exactly
`success = false, message = "MinerU task failed or timeout"`. -/
theorem C3_thm (env : OcrEnv) (now : Nat) (q : Question) (cfg : MineruConfig)
    (tid : String) (b : Bool)
    (himg : q.original_images ≠ [])
    (hconf : env.config = some cfg)
    (hsub : env.submitResult = some (tid, b))
    (hpoll : poll_mineru_task cfg env.replies b 600 = none) :
    (process_mineru_ocr env now (some q)).1 =
      { success := false, message := "MinerU task failed or timeout" } := by
  rcases hq : q.original_images with _ | ⟨a, as⟩
  · exact absurd hq himg
  · simp [process_mineru_ocr, hq, hconf, hsub, hpoll]

/-- Counterexample for C3 as stated: the timeout outcome and the
failed-state outcome produce equal task results, so they are not
distinguishable in the task's result. -/
theorem C3_counterexample :
    (process_mineru_ocr envOcrTimeout 7 (some qNewOcr)).1 =
      (process_mineru_ocr envOcrFailedFile 7 (some qNewOcr)).1 ∧
    (process_mineru_ocr envOcrTimeout 7 (some qNewOcr)).1.success = false :=
  ⟨by decide, by decide⟩

/-- Witness for C3 at the timeout environment. -/
theorem C3_thm_witness :
    qNewOcr.original_images ≠ [] ∧
    poll_mineru_task cfgOcr envOcrTimeout.replies true 600 = none ∧
    (process_mineru_ocr envOcrTimeout 7 (some qNewOcr)).1 =
      { success := false, message := "MinerU task failed or timeout" } :=
  ⟨by decide, by decide,
   C3_thm envOcrTimeout 7 qNewOcr cfgOcr "batch-1" true (by decide) rfl rfl (by decide)⟩

/-- The draft-question text that batch generation stores for slot `i`:
the parsed question on success, the parse-failure placeholder when the
response has no parseable sections, the call-failure placeholder when the
provider call fails. -/
def expectedDraftQ (env : LlmEnv) (oq oa : String) (i : Nat) : String :=
  match env.callLlm (build_rewrite_prompt env.template_row oq oa i) with
  | none => "# API调用失败\n请人工编辑"
  | some response =>
    if strTruthy (parse_llm_response response).1 && strTruthy (parse_llm_response response).2 then
      (parse_llm_response response).1.getD ""
    else "# 生成失败\n请人工编辑"

/-- Whatever the branch, `expectedDraftQ` is a nonempty string. -/
theorem expectedDraftQ_truthy (env : LlmEnv) (oq oa : String) (i : Nat) :
    strTruthy (some (expectedDraftQ env oq oa i)) = true := by
  simp only [expectedDraftQ]
  rcases env.callLlm (build_rewrite_prompt env.template_row oq oa i) with _ | response
  · decide
  · rcases hcond : (strTruthy (parse_llm_response response).1 &&
        strTruthy (parse_llm_response response).2) with _ | _
    · simp only [hcond, Bool.false_eq_true, if_false]
      decide
    · simp only [hcond, if_true]
      rcases hp : (parse_llm_response response).1 with _ | s
      · rw [hp] at hcond; simp [strTruthy] at hcond
      · rw [hp] at hcond
        simp [strTruthy] at hcond ⊢
        exact hcond.1

/-- A draft write at slot `i` leaves every other slot untouched. -/
theorem applyDraft_getSlot_ne (now : Nat) (q : Question) (i j : Nat)
    (dq da : Option String)
    (hj1 : 1 ≤ j) (hj2 : j ≤ 5) (hi1 : 1 ≤ i) (hi2 : i ≤ 5) (hne : i ≠ j) :
    (applyDraft now q i dq da).getSlot j = q.getSlot j := by
  interval_cases i <;> interval_cases j <;>
    first
    | exact absurd rfl hne
    | (simp only [applyDraft, update_rewrite_draft]
       rw [if_neg (by decide)]
       simp only [Question.updateSlot, Question.getSlot]
       repeat' split
       all_goals rfl)

/-- A draft write at slot `i` stores exactly the given drafts there. -/
theorem applyDraft_getSlot_self (now : Nat) (q : Question) (i : Nat) (x y : String)
    (h1 : 1 ≤ i) (h2 : i ≤ 5) :
    (applyDraft now q i (some x) (some y)).getSlot i =
      { q.getSlot i with draft_question := some x, draft_answer := some y } := by
  interval_cases i <;>
  · simp only [applyDraft, update_rewrite_draft]
    rw [if_neg (by decide)]
    simp only [Question.updateSlot, Question.getSlot]
    repeat' split
    all_goals rfl

/-- One batch-generation iteration leaves every other slot untouched. -/
theorem genStep_getSlot_ne (env : LlmEnv) (now : Nat) (oq oa : String)
    (acc : Question × Nat × Nat) (i j : Nat)
    (hj1 : 1 ≤ j) (hj2 : j ≤ 5) (hi1 : 1 ≤ i) (hi2 : i ≤ 5) (hne : i ≠ j) :
    ((genStep env now oq oa acc i).1).getSlot j = (acc.1).getSlot j := by
  simp only [genStep]
  repeat' split
  all_goals exact applyDraft_getSlot_ne _ _ _ _ _ _ hj1 hj2 hi1 hi2 hne

/-- One batch-generation iteration stores `expectedDraftQ` in its slot's
draft question field. -/
theorem genStep_getSlot_self (env : LlmEnv) (now : Nat) (oq oa : String)
    (acc : Question × Nat × Nat) (i : Nat) (h1 : 1 ≤ i) (h2 : i ≤ 5) :
    (((genStep env now oq oa acc i).1).getSlot i).draft_question =
      some (expectedDraftQ env oq oa i) := by
  simp only [genStep, expectedDraftQ]
  rcases hc : env.callLlm (build_rewrite_prompt env.template_row oq oa i) with _ | response
  · rw [applyDraft_getSlot_self now acc.1 i _ _ h1 h2]
  · rcases hcond : (strTruthy (parse_llm_response response).1 &&
        strTruthy (parse_llm_response response).2) with _ | _
    · simp only [hcond, Bool.false_eq_true, if_false]
      rw [applyDraft_getSlot_self now acc.1 i _ _ h1 h2]
    · simp only [hcond, if_true]
      rcases hp : (parse_llm_response response).1 with _ | s
      · rw [hp] at hcond; simp [strTruthy] at hcond
      · rcases hp2 : (parse_llm_response response).2 with _ | s2
        · rw [hp2] at hcond; simp [strTruthy] at hcond
        · rw [applyDraft_getSlot_self now acc.1 i s s2 h1 h2]
          simp

/-- Setting the status leaves every slot unchanged. -/
theorem getSlot_set_status (q : Question) (st : QuestionStatus) (k : Nat) :
    ({ q with status := st } : Question).getSlot k = q.getSlot k := by
  rcases k with _ | _ | _ | _ | _ | _ | k <;> rfl

/-- Claim C9 (amended): for single-slot regeneration with a valid index and
canonical texts present, a provider failure writes nothing (the task
result carries the untouched Question), while a parse failure stores the
raw response behind the manual-extraction marker together with the
copy-the-answer placeholder; for whole-batch generation every processed
slot ends with `expectedDraftQ` in its draft question field — the parsed
question, or the parse-failure placeholder (the raw response is not kept
there), or the call-failure placeholder — and that value is never empty. -/
theorem C9_thm :
    (∀ (env : LlmEnv) (now : Nat) (q : Question) (index : Nat) (oq oa : String),
      1 ≤ index → index ≤ 5 →
      q.original_question = some oq → q.original_answer = some oa →
      (env.callLlm (build_rewrite_prompt env.template_row oq oa index) = none →
        regenerate_single_rewrite env now (some q) index =
          ({ success := false, message := "LLM API call failed" }, some q)) ∧
      (∀ response,
        env.callLlm (build_rewrite_prompt env.template_row oq oa index) = some response →
        (strTruthy (parse_llm_response response).1 &&
          strTruthy (parse_llm_response response).2) = false →
        ((regenerate_single_rewrite env now (some q) index).2.map
          (fun r => ((r.getSlot index).draft_question, (r.getSlot index).draft_answer))) =
          some (some ("【LLM原始返回 - 需要手动提取】\n\n" ++ response),
                some ("【请从左侧LLM返回中手动复制答案部分】")))) ∧
    (∀ (env : LlmEnv) (now : Nat) (q : Question) (index : Nat),
      1 ≤ index → index ≤ 5 →
      strTruthy q.original_question = true → strTruthy q.original_answer = true →
      ((generate_rewrites env now (some q)).2.map
        (fun r => (r.getSlot index).draft_question)) =
        some (some (expectedDraftQ env (q.original_question.getD "")
          (q.original_answer.getD "") index)) ∧
      strTruthy (some (expectedDraftQ env (q.original_question.getD "")
        (q.original_answer.getD "") index)) = true) := by
  constructor
  · intro env now q index oq oa h1 h2 hoq hoa
    constructor
    · intro hc
      simp only [regenerate_single_rewrite]
      rw [if_neg (by simp only [Bool.or_eq_true, decide_eq_true_eq]; omega)]
      simp only [hoq, hoa, hc]
    · intro response hc hcond
      simp only [regenerate_single_rewrite]
      rw [if_neg (by simp only [Bool.or_eq_true, decide_eq_true_eq]; omega)]
      simp only [hoq, hoa, hc, hcond, Bool.false_eq_true, if_false, Option.map_some',
        Option.some.injEq]
      rw [applyDraft_getSlot_self now q index _ _ h1 h2]
  · intro env now q index h1 h2 hq1 hq2
    constructor
    · simp only [generate_rewrites]
      rw [if_neg (by simp [hq1, hq2])]
      simp only [List.foldl, Option.map_some', Option.some.injEq, getSlot_set_status]
      interval_cases index
      · rw [genStep_getSlot_ne env now _ _ _ 5 1 (by decide) (by decide) (by decide) (by decide) (by decide),
          genStep_getSlot_ne env now _ _ _ 4 1 (by decide) (by decide) (by decide) (by decide) (by decide),
          genStep_getSlot_ne env now _ _ _ 3 1 (by decide) (by decide) (by decide) (by decide) (by decide),
          genStep_getSlot_ne env now _ _ _ 2 1 (by decide) (by decide) (by decide) (by decide) (by decide),
          genStep_getSlot_self env now _ _ _ 1 (by decide) (by decide)]
      · rw [genStep_getSlot_ne env now _ _ _ 5 2 (by decide) (by decide) (by decide) (by decide) (by decide),
          genStep_getSlot_ne env now _ _ _ 4 2 (by decide) (by decide) (by decide) (by decide) (by decide),
          genStep_getSlot_ne env now _ _ _ 3 2 (by decide) (by decide) (by decide) (by decide) (by decide),
          genStep_getSlot_self env now _ _ _ 2 (by decide) (by decide)]
      · rw [genStep_getSlot_ne env now _ _ _ 5 3 (by decide) (by decide) (by decide) (by decide) (by decide),
          genStep_getSlot_ne env now _ _ _ 4 3 (by decide) (by decide) (by decide) (by decide) (by decide),
          genStep_getSlot_self env now _ _ _ 3 (by decide) (by decide)]
      · rw [genStep_getSlot_ne env now _ _ _ 5 4 (by decide) (by decide) (by decide) (by decide) (by decide),
          genStep_getSlot_self env now _ _ _ 4 (by decide) (by decide)]
      · rw [genStep_getSlot_self env now _ _ _ 5 (by decide) (by decide)]
    · exact expectedDraftQ_truthy env _ _ index

/-- A Question whose canonical OCR texts are present, with empty slots. -/
def qLlm : Question :=
  { qNewOcr with original_question := some "OQ", original_answer := some "OA" }

/-- A provider that always answers with unparseable text. -/
def envLlmGarbled : LlmEnv :=
  { template_row := some "T", callLlm := fun _ => some "随便写的" }

/-- A provider whose calls always fail. -/
def envLlmDown : LlmEnv :=
  { template_row := some "T", callLlm := fun _ => none }

/-- Counterexample for C9 as stated: batch generation with an unparseable
response stores the parse-failure placeholder, not the raw response behind
a prefix; and single-slot regeneration with a failed provider call stores
nothing at all, leaving the processed slot empty. -/
theorem C9_counterexample :
    ((generate_rewrites envLlmGarbled 3 (some qLlm)).2.map
      (fun r => (r.getSlot 1).draft_question)) = some (some ("# 生成失败\n请人工编辑")) ∧
    (some ("# 生成失败\n请人工编辑") : Option String) ≠
      some ("【LLM原始返回 - 需要手动提取】\n\n" ++ "随便写的") ∧
    (regenerate_single_rewrite envLlmDown 3 (some qLlm) 2).2 = some qLlm ∧
    (qLlm.getSlot 2).draft_question = none :=
  ⟨by decide, by decide, by decide, by decide⟩

/-- Witness for C9 at the concrete environments. -/
theorem C9_thm_witness :
    regenerate_single_rewrite envLlmDown 4 (some qLlm) 3 =
      ({ success := false, message := "LLM API call failed" }, some qLlm) ∧
    ((regenerate_single_rewrite envLlmGarbled 4 (some qLlm) 3).2.map
      (fun r => ((r.getSlot 3).draft_question, (r.getSlot 3).draft_answer))) =
      some (some ("【LLM原始返回 - 需要手动提取】\n\n" ++ "随便写的"),
            some ("【请从左侧LLM返回中手动复制答案部分】")) ∧
    ((generate_rewrites envLlmGarbled 4 (some qLlm)).2.map
      (fun r => (r.getSlot 2).draft_question)) =
      some (some (expectedDraftQ envLlmGarbled (qLlm.original_question.getD "")
        (qLlm.original_answer.getD "") 2)) :=
  ⟨(C9_thm.1 envLlmDown 4 qLlm 3 "OQ" "OA" (by decide) (by decide) (by decide) (by decide)).1 rfl,
   (C9_thm.1 envLlmGarbled 4 qLlm 3 "OQ" "OA" (by decide) (by decide) (by decide) (by decide)).2
     "随便写的" rfl (by decide),
   (C9_thm.2 envLlmGarbled 4 qLlm 2 (by decide) (by decide) (by decide) (by decide)).1⟩
